import Mathlib

/-!
Verification of the web-ext extension-runner subsystem specification.

The repository ships the test suites for the Chromium extension runner, the
Firefox module and the config merge logic; the runner implementations
themselves (src/extension-runners/chromium.js, src/firefox/index.js) are not
part of the packaged sources, so those components are modelled from the
specification (each such definition carries a doc comment starting with
"Modelled from the spec:").  The config merge (src/config.js) is embedded
directly from its source.
-/

namespace WebExt

/-- Log levels relevant to the verified properties: the logger's debug and
error channels. -/
inductive LogLevel
  | debug
  | error
deriving DecidableEq, Repr

/-- A single log line: a level and a message. -/
structure LogEntry where
  level : LogLevel
  message : String
deriving DecidableEq, Repr

/-! ## Cleanup coordinator and runner exit model (spec sections 4.4, 4.5) -/

/-- A registered cleanup callback, identified by its registration id; `fails`
records whether invoking it throws or rejects. -/
structure Cleanup where
  id : Nat
  fails : Bool
deriving DecidableEq, Repr

/-- The log entry produced when a cleanup callback throws: the error is caught
and logged, never rethrown. -/
def cleanupFailureLog (c : Cleanup) : List LogEntry :=
  if c.fails then [⟨LogLevel.error, "Exception on executing cleanup callback"⟩] else []

/-- Modelled from the spec: the cleanup coordinator invokes every registered
callback in registration order; a callback that throws is caught and logged
and does not prevent subsequent callbacks from running.  Returns the ids of
the callbacks that were invoked (in invocation order) and the log entries
produced. -/
def runCleanupCallbacks : List Cleanup → List Nat × List LogEntry
  | [] => ([], [])
  | c :: rest =>
    let restRes := runCleanupCallbacks rest
    (c.id :: restRes.1, cleanupFailureLog c ++ restRes.2)

/-- Runtime state of one runner instance: the registered cleanup callbacks,
the idempotency guard flag, the trace of executed callback ids and the logs
emitted so far. -/
structure RunnerState where
  cleanups : List Cleanup
  exiting : Bool
  executed : List Nat
  logs : List LogEntry
deriving DecidableEq, Repr

/-- A fresh runner instance holding the given registered cleanup callbacks. -/
def initState (cbs : List Cleanup) : RunnerState :=
  ⟨cbs, false, [], []⟩

/-- Modelled from the spec: idempotent teardown.  The exit path is gated by a
single flag checked-and-set atomically within the single-threaded execution
model; the first call runs every cleanup callback in registration order and
any later call is a no-op.  Cleanup failures are swallowed, so the returned
outcome is always a success. -/
def exitRunner (s : RunnerState) : RunnerState × Except String Unit :=
  if s.exiting then (s, Except.ok ())
  else
    let res := runCleanupCallbacks s.cleanups
    ({ s with
        exiting := true
        executed := s.executed ++ res.1
        logs := s.logs ++ res.2 }, Except.ok ())

/-- Modelled from the spec: the runner registers a listener on the browser
process close event that drives the same teardown path as an explicit exit
call, sharing the idempotency guard. -/
def handleProcessClose (s : RunnerState) : RunnerState × Except String Unit :=
  exitRunner s

/-- A teardown trigger: an explicit exit call, or a close event emitted by
the browser process. -/
inductive ExitTrigger
  | explicitExit
  | processClose
deriving DecidableEq, Repr

/-- Dispatch one teardown trigger against the runner state. -/
def runTrigger : ExitTrigger → RunnerState → RunnerState × Except String Unit
  | ExitTrigger.explicitExit, s => exitRunner s
  | ExitTrigger.processClose, s => handleProcessClose s

/-- Process a sequence of teardown triggers (explicit exits and process close
events interleaved in any order the event loop delivers them). -/
def processEvents (ts : List ExitTrigger) (s : RunnerState) : RunnerState :=
  ts.foldl (fun st t => (runTrigger t st).1) s

/-- The outcome of the asynchronous setup started by a run call. -/
inductive RunOutcome
  | success
  | failure (msg : String)
deriving DecidableEq, Repr

/-- Modelled from the spec: exit awaits the in-flight run setup before
proceeding; a setup failure is swallowed at that point (the session is being
torn down anyway) and logged at debug level. -/
def awaitSetupDone : RunOutcome → List LogEntry
  | RunOutcome.success => []
  | RunOutcome.failure msg =>
    [⟨LogLevel.debug, "ignored setup error on chromium runner shutdown: " ++ msg⟩]

/-- Modelled from the spec: an exit call issued after run has settled with
the given outcome.  It records the debug log for a swallowed setup failure
and then performs the ordinary idempotent teardown. -/
def exitAfterRun (o : RunOutcome) (s : RunnerState) : RunnerState × Except String Unit :=
  exitRunner { s with logs := s.logs ++ awaitSetupDone o }

/-! ## Helper lemmas about the exit model -/

/-- The ids of the invoked callbacks are exactly the registered ids, in
registration order. -/
theorem runCleanupCallbacks_ids (cbs : List Cleanup) :
    (runCleanupCallbacks cbs).1 = cbs.map Cleanup.id := by
  induction cbs with
  | nil => rfl
  | cons c rest ih => simp [runCleanupCallbacks, ih]

/-- The logs produced by the cleanup run are exactly the failure logs of the
failing callbacks, in order. -/
theorem runCleanupCallbacks_logs (cbs : List Cleanup) :
    (runCleanupCallbacks cbs).2 = (cbs.map cleanupFailureLog).flatten := by
  induction cbs with
  | nil => rfl
  | cons c rest ih => simp [runCleanupCallbacks, ih]

/-- Once the guard flag is set, any further teardown trigger leaves the state
unchanged. -/
theorem runTrigger_exiting (t : ExitTrigger) (s : RunnerState) (h : s.exiting = true) :
    runTrigger t s = (s, Except.ok ()) := by
  cases t <;> simp [runTrigger, handleProcessClose, exitRunner, h]

/-- Once the guard flag is set, any further sequence of teardown triggers
leaves the state unchanged. -/
theorem processEvents_exiting (ts : List ExitTrigger) (s : RunnerState)
    (h : s.exiting = true) :
    processEvents ts s = s := by
  induction ts with
  | nil => rfl
  | cons t rest ih =>
    simp only [processEvents, List.foldl_cons]
    rw [show (runTrigger t s).1 = s by rw [runTrigger_exiting t s h]]
    exact ih

/-- The first teardown trigger on a fresh runner sets the guard and executes
every registered callback in order. -/
theorem runTrigger_init (t : ExitTrigger) (cbs : List Cleanup) :
    (runTrigger t (initState cbs)).1 =
      ⟨cbs, true, cbs.map Cleanup.id, (cbs.map cleanupFailureLog).flatten⟩ := by
  cases t <;>
    simp [runTrigger, handleProcessClose, exitRunner, initState,
      runCleanupCallbacks_ids, runCleanupCallbacks_logs]

/-! ## ReloadManagerChannel model (spec section 4.3) -/

/-- A control message on the WebSocket wire: a JSON object with a single
type field. -/
structure WireMessage where
  type : String
deriving DecidableEq, Repr

/-- The reload command broadcast to the companion extension. -/
def reloadAllMessage : WireMessage :=
  ⟨"webExtReloadAllExtensions"⟩

/-- The WebSocket server side of the reload-manager control channel: the ids
of the currently connected client sockets, in the order they are tracked by
the server. -/
structure Channel where
  clients : List Nat
deriving DecidableEq, Repr

/-- Modelled from the spec: a broadcast sends the given message to every
currently connected client, in tracked order; the broadcast set is the
client set at call time. -/
def broadcast (ch : Channel) (m : WireMessage) : List (Nat × WireMessage) :=
  ch.clients.map (fun c => (c, m))

/-- Modelled from the spec: reloadAllExtensions broadcasts the reload command
to every connected client. -/
def reloadAllExtensions (ch : Channel) : List (Nat × WireMessage) :=
  broadcast ch reloadAllMessage

/-- Modelled from the spec: reloadExtensionBySourceDir accepts a source
directory but, given the companion extension's current capability, performs a
full reload of all managed extensions (documented limitation). -/
def reloadExtensionBySourceDir (ch : Channel) (sourceDir : String) :
    List (Nat × WireMessage) :=
  reloadAllExtensions ch

/-- A new client socket attaching to the WebSocket server. -/
def connectClient (ch : Channel) (c : Nat) : Channel :=
  ⟨ch.clients ++ [c]⟩

/-- A client closing its connection: it is removed from the tracked set. -/
def closeClient (ch : Channel) (c : Nat) : Channel :=
  ⟨ch.clients.filter (fun d => d ≠ c)⟩

/-- Modelled from the spec: a socket-level error on one client connection is
logged at debug level and that connection is dropped from the broadcast set;
the server itself keeps running. -/
def handleSocketError (ch : Channel) (c : Nat) (errMsg : String) :
    Channel × List LogEntry :=
  (closeClient ch c, [⟨LogLevel.debug, errMsg⟩])

/-! ## PortFinder model (spec sections 4.1 and 7) -/

/-- Outcome of the probe TCP connect against the preferred debugger port. -/
inductive ConnectOutcome
  | refused
  | connected
  | otherError (msg : String)
deriving DecidableEq, Repr

/-- Errors the port finder can raise, kept as distinct classes so that an
already-active debugging session is reported distinctly from any other
failure. -/
inductive PortError
  | activeSession (port : Nat)
  | unexpected (msg : String)
deriving DecidableEq, Repr

/-- Result of a port probe: the port or the error, plus whether the probe
connection was disconnected by the finder. -/
structure FindResult where
  result : Except PortError Nat
  probeClosed : Bool
deriving Repr

/-- Modelled from the spec: the port finder attempts a TCP connect to the
preferred port.  A refused connection means the port is free and that same
port is returned.  A successful connection that answers the debug-protocol
handshake means another debugging session is already active: the probe
client is disconnected and the distinct active-session error is raised.
Any other connection error is re-thrown. -/
def defaultRemotePortFinder (portToTry : Nat) (outcome : ConnectOutcome) : FindResult :=
  match outcome with
  | ConnectOutcome.refused => ⟨Except.ok portToTry, false⟩
  | ConnectOutcome.connected => ⟨Except.error (PortError.activeSession portToTry), true⟩
  | ConnectOutcome.otherError msg => ⟨Except.error (PortError.unexpected msg), false⟩

/-! ## Chromium launch flags (spec section 6) -/

/-- Modelled from the spec: the chrome flag list computed by the Chromium
runner launch: the default flag set (minus the disable-extensions flag,
already removed from the list passed in), the load-extension flag naming the
companion extension directory and every extension source directory, an
optional user-data-dir flag for a custom profile, any additional binary
args, and then all but the first start URL as trailing arguments. -/
def chromiumLaunchChromeFlags (defaultFlags : List String) (companionDir : String)
    (extensionDirs : List String) (profile : Option String)
    (args : List String) (startUrls : List String) : List String :=
  defaultFlags
    ++ ["--load-extension=" ++ String.intercalate "," (companionDir :: extensionDirs)]
    ++ (match profile with
        | some p => ["--user-data-dir=" ++ p]
        | none => [])
    ++ args
    ++ startUrls.drop 1

/-- Modelled from the spec: the first start URL is passed to the launcher as
the dedicated starting URL. -/
def chromiumStartingUrl (startUrls : List String) : Option String :=
  startUrls.head?

/-! ## Firefox launch options (spec sections 4.2 and 6, firefox test suite) -/

/-- Modelled from the spec: the options the Firefox run path hands to the
process runner: the profile path, the discovered remote-debugging port to
listen on, an optional custom binary and optional binary args.  The
companion-extension load flag belongs to the Chromium launch only. -/
structure FxRunnerOptions where
  profile : String
  listen : Nat
  binary : Option String
  binaryArgs : Option String
deriving DecidableEq, Repr

/-- Modelled from the spec: the Firefox run path builds its runner options
from the profile, the discovered port and the optional binary and args. -/
def firefoxRunOptions (profilePath : String) (port : Nat)
    (firefoxBinary : Option String) (binaryArgs : Option String) : FxRunnerOptions :=
  ⟨profilePath, port, firefoxBinary, binaryArgs⟩

/-- The command-line flag list the Firefox launch passes to the browser
binary: just the optional binary args (there is no chrome-flags list and no
companion extension on the Firefox path). -/
def firefoxLaunchFlags (opts : FxRunnerOptions) : List String :=
  match opts.binaryArgs with
  | some a => [a]
  | none => []

/-! ## Config merge (src/config.js, applyConfigToArgv) -/

/-- A JavaScript value as it occurs in parsed argv and config objects:
undefined, a boolean, a number or a string. -/
inductive JSValue
  | undef
  | jsBool (b : Bool)
  | num (n : Int)
  | str (s : String)
deriving DecidableEq, Repr

/-- JavaScript truthiness: undefined, false, 0 and the empty string are
falsey; everything else is truthy. -/
def truthy : JSValue → Bool
  | JSValue.undef => false
  | JSValue.jsBool b => b
  | JSValue.num n => decide (n ≠ 0)
  | JSValue.str s => decide (s ≠ "")

/-- A JavaScript object: own enumerable properties in insertion order. -/
abbrev JSObject := List (String × JSValue)

/-- Property read: `o[k]`, yielding undefined when the key is absent. -/
def getProp (o : JSObject) (k : String) : JSValue :=
  match o.find? (fun p => p.1 == k) with
  | some p => p.2
  | none => JSValue.undef

/-- `o.hasOwnProperty(k)`. -/
def hasOwnProperty (o : JSObject) (k : String) : Bool :=
  (o.find? (fun p => p.1 == k)).isSome

/-- Property write: `o[k] = v`, overwriting in place or appending. -/
def setProp (o : JSObject) (k : String) (v : JSValue) : JSObject :=
  if hasOwnProperty o k then
    o.map (fun p => if p.1 == k then (k, v) else p)
  else
    o ++ [(k, v)]

/-- The body of the `for (const option in configObject)` loop of
applyConfigToArgv (src/config.js lines 27 to 37), applied to one option. -/
def applyConfigOption (defaultValues : JSObject) (argv : JSObject)
    (option : String) (confVal : JSValue) : JSObject :=
  if truthy (getProp argv option) && truthy (getProp defaultValues option) then
    -- const wasValueSetOnCLI = argv[option] !== defaultValues[option];
    if getProp argv option ≠ getProp defaultValues option then argv
    else if !hasOwnProperty argv option || truthy (getProp defaultValues option) then
      setProp argv option confVal
    else argv
  else if !hasOwnProperty argv option || truthy (getProp defaultValues option) then
    setProp argv option confVal
  else argv

/-- applyConfigToArgv from src/config.js: iterates the config object's own
properties in insertion order, preserving an argv value only when it is
truthy, the declared default is truthy and the two differ; otherwise the
configured value is assigned whenever the option is absent from argv or the
declared default is truthy. -/
def applyConfigToArgv (argv configObject defaultValues : JSObject) : JSObject :=
  configObject.foldl
    (fun argv p => applyConfigOption defaultValues argv p.1 p.2) argv

/-! ## Sanity checks of the config embedding against the passing tests -/

/-- A truthy value set on the command line (differing from the declared
default) is preserved over the configured value. -/
theorem applyConfigToArgv_cli_truthy_preserved :
    getProp
      (applyConfigToArgv
        [("sourceDir", JSValue.str "/user/specified/source/dir/")]
        [("sourceDir", JSValue.str "/configured/source/dir")]
        [("sourceDir", JSValue.str "default/value/option/definition")])
      "sourceDir" = JSValue.str "/user/specified/source/dir/" := by
  rfl

/-- A configured value overrides an argv value that still equals the declared
default. -/
theorem applyConfigToArgv_configured_over_default :
    getProp
      (applyConfigToArgv
        [("sourceDir", JSValue.str "default/value/option/definition")]
        [("sourceDir", JSValue.str "/configured/source/dir")]
        [("sourceDir", JSValue.str "default/value/option/definition")])
      "sourceDir" = JSValue.str "/configured/source/dir" := by
  rfl

/-! ## Claim theorems -/

/-- Claim C1: for every runner instance and every sequence of one or more
teardown triggers (explicit exit calls and browser process close events, in
whatever order the event loop delivers them), each registered cleanup
callback executes exactly once, and the callbacks execute in the order they
were registered. -/
theorem C1_exit_cleanup_exactly_once (cbs : List Cleanup)
    (ts : List ExitTrigger) (h : ts ≠ []) :
    (processEvents ts (initState cbs)).executed = cbs.map Cleanup.id := by
  cases ts with
  | nil => exact absurd rfl h
  | cons t rest =>
    have h1 : processEvents (t :: rest) (initState cbs)
        = processEvents rest ((runTrigger t (initState cbs)).1) := rfl
    rw [h1, runTrigger_init, processEvents_exiting _ _ rfl]

/-- Witness for C1 at a concrete runner: two registered callbacks, an
explicit exit followed by a process close event. -/
theorem C1_exit_cleanup_exactly_once_witness :
    ([ExitTrigger.explicitExit, ExitTrigger.processClose] : List ExitTrigger) ≠ [] ∧
    (processEvents [ExitTrigger.explicitExit, ExitTrigger.processClose]
      (initState [⟨1, true⟩, ⟨2, false⟩])).executed = [1, 2] :=
  ⟨by decide,
    C1_exit_cleanup_exactly_once [⟨1, true⟩, ⟨2, false⟩]
      [ExitTrigger.explicitExit, ExitTrigger.processClose] (by decide)⟩

/-- Claim C2: a close event emitted by the browser process runs exactly one
teardown cycle, identical in effect to calling exit directly; it shares the
idempotency guard, so a second trigger after the close is a no-op. -/
theorem C2_process_close_single_teardown (s : RunnerState) (cbs : List Cleanup) :
    handleProcessClose s = exitRunner s ∧
    (handleProcessClose (initState cbs)).1.executed = cbs.map Cleanup.id ∧
    (handleProcessClose (handleProcessClose (initState cbs)).1).1
      = (handleProcessClose (initState cbs)).1 := by
  have hinit := runTrigger_init ExitTrigger.processClose cbs
  simp only [runTrigger] at hinit
  refine ⟨rfl, ?_, ?_⟩
  · rw [hinit]
  · rw [hinit]
    simp [handleProcessClose, exitRunner]

/-- Claim C3: when run rejected with a setup error and exit is then called,
exit waits for run to settle, resolves without throwing, and logs the
original setup error at debug level instead of re-raising it. -/
theorem C3_exit_swallows_setup_error (msg : String) (cbs : List Cleanup) :
    (exitAfterRun (RunOutcome.failure msg) (initState cbs)).2 = Except.ok () ∧
    (⟨LogLevel.debug, "ignored setup error on chromium runner shutdown: " ++ msg⟩ : LogEntry)
      ∈ (exitAfterRun (RunOutcome.failure msg) (initState cbs)).1.logs := by
  constructor
  · simp [exitAfterRun, exitRunner, initState]
  · simp [exitAfterRun, exitRunner, initState, awaitSetupDone]

/-- Claim C4: every registered cleanup callback runs, in registration order,
even when earlier callbacks throw or reject; a failing callback is caught
and logged and the error is never rethrown: the exit outcome is still a
success after the full list has run. -/
theorem C4_cleanup_errors_nonfatal (cbs : List Cleanup) :
    (runCleanupCallbacks cbs).1 = cbs.map Cleanup.id ∧
    (runCleanupCallbacks cbs).2 = (cbs.map cleanupFailureLog).flatten ∧
    (exitRunner (initState cbs)).2 = Except.ok () ∧
    (exitRunner (initState cbs)).1.executed = cbs.map Cleanup.id :=
  ⟨runCleanupCallbacks_ids cbs, runCleanupCallbacks_logs cbs,
    by simp [exitRunner, initState],
    by simp [exitRunner, initState, runCleanupCallbacks_ids]⟩

/-- Claim C5: for every connected-client set and every source directory,
reloadExtensionBySourceDir sends exactly the same wire messages as
reloadAllExtensions, namely the reload-all command object to every connected
client. -/
theorem C5_reload_by_dir_equals_reload_all (ch : Channel) (path : String) :
    reloadExtensionBySourceDir ch path = reloadAllExtensions ch ∧
    reloadExtensionBySourceDir ch path
      = ch.clients.map (fun c => (c, WireMessage.mk "webExtReloadAllExtensions")) :=
  ⟨rfl, rfl⟩

/-- Claim C6: with two connected clients, after one client closes its
connection, a subsequent reloadAllExtensions broadcast still delivers the
reload message to the remaining connected client. -/
theorem C6_broadcast_after_client_close (c1 c2 : Nat) (h : c1 ≠ c2) :
    (c2, reloadAllMessage) ∈
      reloadAllExtensions
        (closeClient (connectClient (connectClient ⟨[]⟩ c1) c2) c1) := by
  refine List.mem_map.mpr ⟨c2, ?_, rfl⟩
  simp [closeClient, connectClient, Ne.symm h]

/-- Witness for C6 at two concrete clients. -/
theorem C6_broadcast_after_client_close_witness :
    (1 : Nat) ≠ 2 ∧
    (2, reloadAllMessage) ∈
      reloadAllExtensions (closeClient (connectClient (connectClient ⟨[]⟩ 1) 2) 1) :=
  ⟨by decide, C6_broadcast_after_client_close 1 2 (by decide)⟩

/-- Claim C7: a socket-level error on one client connection is logged at
debug level, that connection is dropped from the broadcast set, the server
keeps a well-defined state, and a subsequent broadcast still delivers to
every other connected client. -/
theorem C7_socket_error_isolated (ch : Channel) (c : Nat) (err : String) :
    (⟨LogLevel.debug, err⟩ : LogEntry) ∈ (handleSocketError ch c err).2 ∧
    c ∉ (handleSocketError ch c err).1.clients ∧
    ∀ d, d ∈ ch.clients → d ≠ c →
      (d, reloadAllMessage) ∈ reloadAllExtensions (handleSocketError ch c err).1 := by
  refine ⟨by simp [handleSocketError], ?_, ?_⟩
  · simp [handleSocketError, closeClient, List.mem_filter]
  · intro d hd hdc
    refine List.mem_map.mpr ⟨d, ?_, rfl⟩
    exact List.mem_filter.mpr ⟨hd, by simpa using hdc⟩

/-- Witness for C7: a server with clients 1 and 2, an error on client 1,
and delivery to client 2 on the next broadcast. -/
theorem C7_socket_error_isolated_witness :
    (⟨LogLevel.debug, "Fake wss socket ERROR"⟩ : LogEntry)
      ∈ (handleSocketError ⟨[1, 2]⟩ 1 "Fake wss socket ERROR").2 ∧
    1 ∉ (handleSocketError ⟨[1, 2]⟩ 1 "Fake wss socket ERROR").1.clients ∧
    (2, reloadAllMessage)
      ∈ reloadAllExtensions (handleSocketError ⟨[1, 2]⟩ 1 "Fake wss socket ERROR").1 := by
  have h := C7_socket_error_isolated ⟨[1, 2]⟩ 1 "Fake wss socket ERROR"
  exact ⟨h.1, h.2.1, h.2.2 2 (by decide) (by decide)⟩

/-- Claim C8: a refused probe connect makes the port finder return that same
port as free; a successful connect whose listener answers the handshake
raises the distinct active-session error, which is not the generic
unexpected-error class, and the probe connection is closed; any unexpected
connection error is re-thrown unchanged. -/
theorem C8_port_finder_outcomes (port : Nat) (msg other : String) :
    defaultRemotePortFinder port ConnectOutcome.refused
      = ⟨Except.ok port, false⟩ ∧
    (defaultRemotePortFinder port ConnectOutcome.connected).result
      = Except.error (PortError.activeSession port) ∧
    (defaultRemotePortFinder port ConnectOutcome.connected).probeClosed = true ∧
    PortError.activeSession port ≠ PortError.unexpected other ∧
    defaultRemotePortFinder port (ConnectOutcome.otherError msg)
      = ⟨Except.error (PortError.unexpected msg), false⟩ :=
  ⟨rfl, rfl, rfl, fun hcontra => PortError.noConfusion hcontra, rfl⟩

/-- Claim C9, counterexample: the scenario belongs to the Chromium runner,
not the Firefox runner.  The Firefox run path hands the process runner only
the profile path, the debugger port and optional binary args; at a concrete
launch its flag list is empty, so it cannot contain the companion-extension
load flag followed by the trailing start URLs, refuting the exact-list
equality the claim states for a Firefox runner. -/
theorem C9_firefox_launch_has_no_companion_flag :
    firefoxLaunchFlags (firefoxRunOptions "/fake/profile-path" 6000 none none) = [] ∧
    ¬ ∃ f ∈ firefoxLaunchFlags (firefoxRunOptions "/fake/profile-path" 6000 none none),
        f.startsWith "--load-extension=" := by
  constructor
  · rfl
  · rintro ⟨f, hf, -⟩
    simp [firefoxLaunchFlags, firefoxRunOptions] at hf

/-- Claim C9, amended to the Chromium runner: launching the Chromium runner
with start URLs url1, url2, url3 produces chrome flags that are exactly the
default flag set, then the companion-extension load flag, then the
additional binary args, then url2 and url3 as trailing arguments, with url1
passed as the dedicated starting URL. -/
theorem C9_chromium_start_urls (defaultFlags : List String) (companionDir : String)
    (args : List String) :
    chromiumLaunchChromeFlags defaultFlags companionDir ["/fake/sourceDir"] none
        args ["url1", "url2", "url3"]
      = defaultFlags
        ++ ["--load-extension=" ++ companionDir ++ ",/fake/sourceDir"]
        ++ args ++ ["url2", "url3"] ∧
    chromiumStartingUrl ["url1", "url2", "url3"] = some "url1" := by
  constructor
  · show defaultFlags ++ ["--load-extension=" ++ (companionDir ++ "," ++ "/fake/sourceDir")]
        ++ [] ++ args ++ ["url2", "url3"] = _
    simp [String.append_assoc]
  · rfl

/-- Claim C10: evaluation of applyConfigToArgv at the falsey-CLI input from
the repository's own test suite: argv carries numberOfRetries 0 set on the
command line, the declared default is 1 and the configured value is 1.  The
code assigns the configured value 1, while the test (and the claim) expect
the command-line value 0 to be preserved. -/
theorem C10_falsey_cli_value_overridden :
    getProp
      (applyConfigToArgv
        [("numberOfRetries", JSValue.num 0)]
        [("numberOfRetries", JSValue.num 1)]
        [("numberOfRetries", JSValue.num 1)])
      "numberOfRetries" = JSValue.num 1 := by
  rfl

end WebExt
